import Mathlib

/-!
Shallow embedding of `Hem4V_Version12.py`, a local bootstrap orchestrator:
it provisions a workspace, ensures Git, clones a repository, detects the
stack (requirements.txt / package.json), installs dependencies and launches
the project, retrying failed external commands.

External effects (process launches, downloads, filesystem checks,
interactive input) are modelled by explicit environments: a function
`Nat → AttemptResult` gives the outcome of the k-th launch of a command,
booleans give the outcomes of filesystem operations, and lists give the
console input stream.  Process exit statuses are modelled as naturals
(the script targets Windows, where `GetExitCodeProcess` yields an unsigned
value; the sentinel `-1` produced by the script on a launch exception is
an `Int` outside that range).
-/

/-- Outcome of one launch of an external process: either the process ran
and exited with `code`, or an exception was raised while launching it. -/
inductive AttemptResult where
  | exit (code : Nat)
  | exc
deriving DecidableEq

/-- The attempt limit `MAX_ATTEMPTS = 2` (line 22 of the source). -/
def MAX_ATTEMPTS : Nat := 2

/-- The retry loop of the source's `run_cmd` (source lines 109-132).
Here `attempt` is the 1-based attempt counter, `rem + 1` the number of attempts still allowed
(so `rem = 0` means `attempt == MAX_ATTEMPTS`).  Returns the value the
Python function returns together with the number of process launches
performed.  A zero exit returns `0` at once; a non-zero exit returns the
exit status on the last attempt and otherwise retries; an exception during
launch returns `-1` on the last attempt and otherwise retries.  The
fuel-exhausted case corresponds to the unreachable `return -1` after the
loop (line 132). -/
def runCmdGo (att : Nat → AttemptResult) : Nat → Nat → Int × Nat
  | _, 0 => (-1, 0)
  | attempt, rem + 1 =>
    match att attempt with
    | AttemptResult.exit c =>
      if c ≠ 0 then
        if rem = 0 then ((c : Int), 1)
        else
          let p := runCmdGo att (attempt + 1) rem
          (p.1, p.2 + 1)
      else (0, 1)
    | AttemptResult.exc =>
      if rem = 0 then (-1, 1)
      else
        let p := runCmdGo att (attempt + 1) rem
        (p.1, p.2 + 1)

/-- The source's `run_cmd` (source lines 109-132; that name is reserved in
Lean): run a command with the outcomes of the
successive launches given by `att`, starting at attempt 1 with
`MAX_ATTEMPTS` attempts allowed.  First component: the returned status;
second component: how many times the process was launched. -/
def runCmd (att : Nat → AttemptResult) : Int × Nat :=
  runCmdGo att 1 MAX_ATTEMPTS

/-- C2: for every command, `runCmd` launches the process at most
`MAX_ATTEMPTS` times, never launches again after an attempt that exited
with status zero, and when all attempts exit non-zero it returns the exit
status of the final failing attempt. -/
theorem runCmd_retry_policy (att : Nat → AttemptResult) :
    (runCmd att).2 ≤ MAX_ATTEMPTS ∧
    (∀ i, 1 ≤ i → att i = AttemptResult.exit 0 → (runCmd att).2 ≤ i) ∧
    (∀ c₁ c₂ : Nat, att 1 = AttemptResult.exit c₁ → c₁ ≠ 0 →
      att 2 = AttemptResult.exit c₂ → c₂ ≠ 0 → (runCmd att).1 = (c₂ : Int)) := by
  refine ⟨?_, ?_, ?_⟩
  · cases h1 : att 1 with
    | exit c =>
      by_cases hc : c = 0 <;>
        cases h2 : att 2 with
        | exit d =>
          by_cases hd : d = 0 <;>
            simp [runCmd, runCmdGo, MAX_ATTEMPTS, h1, h2, hc, hd]
        | exc => simp [runCmd, runCmdGo, MAX_ATTEMPTS, h1, h2, hc]
    | exc =>
      cases h2 : att 2 with
      | exit d =>
        by_cases hd : d = 0 <;>
          simp [runCmd, runCmdGo, MAX_ATTEMPTS, h1, h2, hd]
      | exc => simp [runCmd, runCmdGo, MAX_ATTEMPTS, h1, h2]
  · intro i hi h0
    rcases Nat.lt_or_ge i 2 with hlt | hge
    · interval_cases i
      simp [runCmd, runCmdGo, MAX_ATTEMPTS, h0]
    · refine le_trans ?_ hge
      cases h1 : att 1 with
      | exit c =>
        by_cases hc : c = 0 <;>
          cases h2 : att 2 with
          | exit d =>
            by_cases hd : d = 0 <;>
              simp [runCmd, runCmdGo, MAX_ATTEMPTS, h1, h2, hc, hd]
          | exc => simp [runCmd, runCmdGo, MAX_ATTEMPTS, h1, h2, hc]
      | exc =>
        cases h2 : att 2 with
        | exit d =>
          by_cases hd : d = 0 <;>
            simp [runCmd, runCmdGo, MAX_ATTEMPTS, h1, h2, hd]
        | exc => simp [runCmd, runCmdGo, MAX_ATTEMPTS, h1, h2]
  · intro c₁ c₂ h1 hc1 h2 hc2
    simp [runCmd, runCmdGo, MAX_ATTEMPTS, h1, h2, hc1, hc2]

/-- A command whose first launch exits 3 and whose second exits 5. -/
def attBothFail : Nat → AttemptResult := fun i =>
  if i = 1 then AttemptResult.exit 3 else AttemptResult.exit 5

/-- Witness for C2: with both attempts exiting non-zero (3 then 5),
`runCmd` returns the final failing status 5. -/
theorem runCmd_retry_policy_witness : (runCmd attBothFail).1 = (5 : Int) :=
  (runCmd_retry_policy attBothFail).2.2 3 5 (by simp [attBothFail])
    (by decide) (by simp [attBothFail]) (by decide)

/-- C7: in `runCmd`, an exception raised while launching is treated the same
as a non-zero exit for retry purposes (a run whose first attempt raises is
indistinguishable from one whose first attempt exits 1, all later attempts
equal), and the returned status is the sentinel `-1` exactly when the final
attempt performed was a launch exception — so a `-1` result can never have
come from a process that ran and exited with a (non-negative) status. -/
theorem runCmd_exception_policy (att att2 : Nat → AttemptResult) :
    (att 1 = AttemptResult.exc → att2 1 = AttemptResult.exit 1 →
      (∀ i, i ≠ 1 → att2 i = att i) → runCmd att = runCmd att2) ∧
    ((runCmd att).1 = -1 ↔
      (att 1 ≠ AttemptResult.exit 0 ∧ att 2 = AttemptResult.exc)) := by
  constructor
  · intro h1 h1b hrest
    have h2 : att2 2 = att 2 := hrest 2 (by decide)
    cases hb : att 2 with
    | exit d =>
      by_cases hd : d = 0 <;>
        simp [runCmd, runCmdGo, MAX_ATTEMPTS, h1, h1b, h2, hb, hd]
    | exc => simp [runCmd, runCmdGo, MAX_ATTEMPTS, h1, h1b, h2, hb]
  · cases h1 : att 1 with
    | exit c =>
      by_cases hc : c = 0 <;>
        cases h2 : att 2 with
        | exit d =>
          by_cases hd : d = 0 <;>
            simp [runCmd, runCmdGo, MAX_ATTEMPTS, h1, h2, hc, hd]
        | exc => simp [runCmd, runCmdGo, MAX_ATTEMPTS, h1, h2, hc]
    | exc =>
      cases h2 : att 2 with
      | exit d =>
        by_cases hd : d = 0 <;>
          simp [runCmd, runCmdGo, MAX_ATTEMPTS, h1, h2, hd]
      | exc => simp [runCmd, runCmdGo, MAX_ATTEMPTS, h1, h2]

/-- A command every launch of which raises an exception. -/
def attAllRaise : Nat → AttemptResult := fun _ => AttemptResult.exc

/-- A command whose first launch exits 1 and whose later launches raise. -/
def attExitThenRaise : Nat → AttemptResult := fun i =>
  if i = 1 then AttemptResult.exit 1 else AttemptResult.exc

/-- Witness for C7: a command that always raises behaves like one whose
first attempt exits 1 instead, and its result is the sentinel `-1`. -/
theorem runCmd_exception_policy_witness :
    runCmd attAllRaise = runCmd attExitThenRaise ∧
    (runCmd attAllRaise).1 = -1 :=
  ⟨(runCmd_exception_policy attAllRaise attExitThenRaise).1 rfl rfl
      (fun i hi => by simp [attAllRaise, attExitThenRaise, hi]),
    ((runCmd_exception_policy attAllRaise attExitThenRaise).2).mpr
      ⟨by decide, rfl⟩⟩

/-- Python `str.rstrip('/')`: drop every trailing `'/'` (source line 135). -/
def rstripSlash (s : List Char) : List Char :=
  (s.reverse.dropWhile (fun c => c == '/')).reverse

/-- Python `str.split('/')`: split on every slash, keeping empty segments;
the empty string splits to one empty segment. -/
def pySplitSlash : List Char → List (List Char)
  | [] => [[]]
  | c :: rest =>
    match pySplitSlash rest with
    | [] => [[]]
    | s :: ss => if c = '/' then [] :: s :: ss else (c :: s) :: ss

/-- The four characters of the version-control suffix `".git"`. -/
def gitSuffix : List Char := ['.', 'g', 'i', 't']

/-- The source's `parse_repo_name` (lines 134-138): strip trailing slashes, take
the last `'/'`-separated segment, and drop a trailing `".git"` (the last
four characters) if present. -/
def parse_repo_name (repo_url : List Char) : List Char :=
  let name := (pySplitSlash (rstripSlash repo_url)).getLastD []
  if gitSuffix.isSuffixOf name then name.take (name.length - 4) else name

/-- Whether the list contains a slash. -/
def hasSlash : List Char → Bool
  | [] => false
  | c :: rest => c == '/' || hasSlash rest

/-- The final path segment: everything after the last slash (the whole
string when it has no slash).  This is the spec's description of the
derived local name, phrased without Python's `split`. -/
def afterLastSlash : List Char → List Char
  | [] => []
  | c :: rest =>
    if hasSlash rest then afterLastSlash rest
    else if c == '/' then rest else c :: rest

/-- The spec's description of the derived local name: the final path
segment of the URL with trailing slashes stripped, with one trailing
version-control suffix removed if present. -/
def repoNameSpec (u : List Char) : List Char :=
  let seg := afterLastSlash (rstripSlash u)
  if gitSuffix.isSuffixOf seg then seg.take (seg.length - 4) else seg

theorem pySplitSlash_ne_nil (s : List Char) : pySplitSlash s ≠ [] := by
  cases s with
  | nil => simp [pySplitSlash]
  | cons c rest =>
    simp only [pySplitSlash]
    cases h : pySplitSlash rest with
    | nil => simp
    | cons a l =>
      by_cases hc : c = '/' <;> simp [hc]

theorem pySplitSlash_no_slash (s : List Char) (h : hasSlash s = false) :
    pySplitSlash s = [s] := by
  induction s with
  | nil => rfl
  | cons c rest ih =>
    simp only [hasSlash, Bool.or_eq_false_iff, beq_eq_false_iff_ne, ne_eq] at h
    simp [pySplitSlash, ih h.2, h.1]

theorem pySplitSlash_exists_cons (s : List Char) :
    ∃ a l, pySplitSlash s = a :: l := by
  cases hq : pySplitSlash s with
  | nil => exact absurd hq (pySplitSlash_ne_nil s)
  | cons a l => exact ⟨a, l, rfl⟩

theorem pySplitSlash_singleton (s x : List Char)
    (h : pySplitSlash s = [x]) : x = s ∧ hasSlash s = false := by
  induction s generalizing x with
  | nil =>
    simp only [pySplitSlash, List.cons.injEq, and_true] at h
    exact ⟨h.symm, rfl⟩
  | cons c rest ih =>
    obtain ⟨a, l, hr⟩ := pySplitSlash_exists_cons rest
    simp only [pySplitSlash, hr] at h
    by_cases hc : c = '/'
    · rw [if_pos hc] at h
      simp at h
    · rw [if_neg hc] at h
      simp only [List.cons.injEq] at h
      obtain ⟨hx, hl⟩ := h
      subst hl
      obtain ⟨ha, hs⟩ := ih a hr
      subst ha
      exact ⟨hx.symm, by simp [hasSlash, hc, hs]⟩

theorem afterLastSlash_no_slash (s : List Char) (h : hasSlash s = false) :
    afterLastSlash s = s := by
  induction s with
  | nil => rfl
  | cons c rest ih =>
    simp only [hasSlash, Bool.or_eq_false_iff, beq_eq_false_iff_ne, ne_eq] at h
    simp [afterLastSlash, h.1, h.2, ih h.2]

theorem getLastD_pySplitSlash (s : List Char) :
    (pySplitSlash s).getLastD [] = afterLastSlash s := by
  induction s with
  | nil => rfl
  | cons c rest ih =>
    obtain ⟨a, l, hr⟩ := pySplitSlash_exists_cons rest
    rw [hr] at ih
    rw [List.getLastD_cons] at ih
    simp only [pySplitSlash, hr]
    by_cases hc : c = '/'
    · rw [if_pos hc]
      rw [List.getLastD_cons, List.getLastD_cons]
      by_cases hs : hasSlash rest
      · rw [ih]
        subst hc
        simp [afterLastSlash, hs]
      · have hs2 : hasSlash rest = false := by simpa using hs
        rw [ih, afterLastSlash_no_slash rest hs2]
        subst hc
        simp [afterLastSlash, hs2]
    · rw [if_neg hc]
      cases l with
      | nil =>
        obtain ⟨ha, hs⟩ := pySplitSlash_singleton rest a hr
        subst ha
        simp [afterLastSlash, hs, hc, List.getLastD_cons]
      | cons b m =>
        have hs : hasSlash rest = true := by
          by_contra hsf
          have h2 := pySplitSlash_no_slash rest (by simpa using hsf)
          rw [hr] at h2
          simp at h2
        rw [List.getLastD_cons, List.getLastD_cons]
        rw [List.getLastD_cons] at ih
        rw [ih]
        simp [afterLastSlash, hs, hc]

/-- C5: `parse_repo_name` returns the final path segment of the URL after
stripping trailing slashes, with exactly one trailing `".git"` suffix
removed if present; `"https://host/org/sample-app.git"` yields
`"sample-app"`; only one suffix is removed (`"a.git.git"` keeps one); and
the result is stable across repeated calls with the same URL. -/
theorem parse_repo_name_spec :
    (∀ u : List Char, parse_repo_name u = repoNameSpec u) ∧
    parse_repo_name ("https://host/org/sample-app.git".toList) =
      ("sample-app".toList) ∧
    parse_repo_name ("https://host/org/a.git.git".toList) =
      ("a.git".toList) ∧
    (∀ u v : List Char, u = v → parse_repo_name u = parse_repo_name v) := by
  refine ⟨?_, by decide, by decide, ?_⟩
  · intro u
    unfold parse_repo_name repoNameSpec
    rw [getLastD_pySplitSlash]
  · intro u v h
    rw [h]

/-- Witness for C5: stability instantiated at the sample URL. -/
theorem parse_repo_name_spec_witness :
    parse_repo_name ("https://host/org/sample-app.git".toList) =
      parse_repo_name ("https://host/org/sample-app.git".toList) :=
  parse_repo_name_spec.2.2.2 _ _ rfl

/-- The four characters `"http"`. -/
def httpPrefix : List Char := ['h', 't', 't', 'p']

/-- The URL pre-check in `main` (source lines 261-263), applied to the
stripped input: the workflow is started unless the input is empty or does
not start with `"http"`. -/
def main_accepts (repo_url : List Char) : Bool :=
  !(repo_url.isEmpty || !(httpPrefix.isPrefixOf repo_url))

/-- C10: `main`'s pre-check accepts exactly the non-empty inputs that start
with the four characters `"http"`; `"httpfoo"` (no `"://"`) is accepted,
and inputs like `"ftp://example"` or the empty input are rejected. -/
theorem main_accepts_iff :
    (∀ s : List Char,
      main_accepts s = true ↔ (s ≠ [] ∧ httpPrefix.isPrefixOf s = true)) ∧
    main_accepts ("httpfoo".toList) = true ∧
    main_accepts ("ftp://example".toList) = false ∧
    main_accepts [] = false := by
  refine ⟨?_, by decide, by decide, by decide⟩
  intro s
  cases s with
  | nil => simp [main_accepts]
  | cons c rest =>
    simp [main_accepts]

/-- Witness for C10: the pre-check applied at `"http"` itself. -/
theorem main_accepts_iff_witness : main_accepts ("http".toList) = true :=
  (main_accepts_iff.1 ("http".toList)).mpr ⟨by decide, by decide⟩

/-- Result of Python-entry-point resolution.  `blocked` models the
interactive selection loop consuming the whole supplied input stream
without receiving a valid index (in the script it would keep prompting). -/
inductive EntryResult where
  | found (f : List Char)
  | nofile
  | blocked
deriving DecidableEq

/-- One console input for the selection prompt: `none` when `int(input())`
raises, `some c` when it parses to the integer `c`. -/
abbrev ConsoleIn := Option Int

/-- Whether a console input is a valid 1-based index into a list of `n`
files (source line 156). -/
def validChoice (n : Nat) : ConsoleIn → Bool
  | some c => decide (1 ≤ c) && decide (c ≤ (n : Int))
  | none => false

/-- The interactive selection loop (source lines 153-160): read inputs
until one is a valid 1-based index, then return that file; an unparseable
or out-of-range input is re-prompted. -/
def selectLoop (pyfiles : List (List Char)) : List ConsoleIn → EntryResult
  | [] => EntryResult.blocked
  | i :: rest =>
    match i with
    | some c =>
      if 1 ≤ c ∧ c ≤ (pyfiles.length : Int) then
        EntryResult.found (pyfiles.getD (c.toNat - 1) [])
      else selectLoop pyfiles rest
    | none => selectLoop pyfiles rest

/-- The conventional entry-file names, in the order the source checks them
(source line 141). -/
def candidates : List (List Char) :=
  ["main.py".toList, "app.py".toList, "index.py".toList]

/-- The top-level Python files of a directory: the result of
`glob("*.py")`, i.e. the files whose name ends in `".py"`, in directory
order (source line 146). -/
def pySuffix : List Char := ['.', 'p', 'y']

/-- Whether a file name is hidden (starts with a dot); `glob` does not
match hidden files with the `*` wildcard. -/
def isHidden : List Char → Bool
  | [] => false
  | c :: _ => c == '.'

/-- Whether `glob("*.py")` matches the file name: it ends in `".py"` and is
not hidden. -/
def globPy (f : List Char) : Bool :=
  !isHidden f && pySuffix.isSuffixOf f

def pyFilesOf (files : List (List Char)) : List (List Char) :=
  files.filter globPy

/-- The source's `find_python_entrypoint` (lines 140-162) over a directory whose
top-level file names are `files` and a console input stream `inputs`:
return the first conventional candidate that exists; otherwise the unique
top-level `.py` file if there is exactly one; otherwise, if there are
several, defer to the interactive selection loop; otherwise no entry file. -/
def find_python_entrypoint (files : List (List Char)) (inputs : List ConsoleIn) :
    EntryResult :=
  match candidates.find? (fun f => files.contains f) with
  | some f => EntryResult.found f
  | none =>
    let pyfiles := pyFilesOf files
    if pyfiles.length = 1 then EntryResult.found (pyfiles.getD 0 [])
    else if pyfiles.length > 1 then selectLoop pyfiles inputs
    else EntryResult.nofile

theorem selectLoop_first_valid (pyfiles : List (List Char))
    (pre : List ConsoleIn) (c : Int) (rest : List ConsoleIn)
    (hpre : ∀ x ∈ pre, validChoice pyfiles.length x = false)
    (h1 : 1 ≤ c) (h2 : c ≤ (pyfiles.length : Int)) :
    selectLoop pyfiles (pre ++ some c :: rest) =
      EntryResult.found (pyfiles.getD (c.toNat - 1) []) := by
  induction pre with
  | nil => simp [selectLoop, h1, h2]
  | cons x pre ih =>
    have hx := hpre x (by simp)
    have hrest : ∀ y ∈ pre, validChoice pyfiles.length y = false :=
      fun y hy => hpre y (by simp [hy])
    cases x with
    | none => simpa [selectLoop] using ih hrest
    | some d =>
      simp only [validChoice, Bool.and_eq_false_iff, decide_eq_false_iff_not,
        not_le] at hx
      have hd : ¬(1 ≤ d ∧ d ≤ (pyfiles.length : Int)) := by
        rcases hx with hx | hx <;> omega
      simpa [selectLoop, hd] using ih hrest

/-- Environment for `install_git`: for each 1-based combined attempt,
whether the `urlretrieve` download succeeds (raises otherwise), the outcome
of running the downloaded installer with `/VERYSILENT /NORESTART`, and
whether `os.remove` of the temporary installer succeeds (raises
otherwise). -/
structure GitEnv where
  downloadOk : Nat → Bool
  installRes : Nat → AttemptResult
  removeOk : Nat → Bool

/-- Observables of `install_git`: the returned boolean, how many times the
installer was downloaded (`urlretrieve` calls), how many times the
installer process was started, and whether some installer run exited 0
(i.e. Git actually got installed at some point). -/
structure GitOut where
  ok : Bool
  downloads : Nat
  installRuns : Nat
  installedAny : Bool
deriving DecidableEq

/-- The loop of `install_git` (source lines 49-82).  Each combined attempt
downloads the installer, runs it silently, and on a zero exit removes the
temporary file; a download exception, a non-zero install exit, or a remove
exception ends the attempt — returning failure if it was the last one and
otherwise starting the next attempt from the download.  The fuel-exhausted
case is the unreachable `return False` after the loop (line 82). -/
def install_gitGo (env : GitEnv) : Nat → Nat → GitOut
  | _, 0 => ⟨false, 0, 0, false⟩
  | attempt, rem + 1 =>
    if env.downloadOk attempt then
      match env.installRes attempt with
      | AttemptResult.exit c =>
        if c ≠ 0 then
          if rem = 0 then ⟨false, 1, 1, false⟩
          else
            let o := install_gitGo env (attempt + 1) rem
            ⟨o.ok, o.downloads + 1, o.installRuns + 1, o.installedAny⟩
        else
          if env.removeOk attempt then ⟨true, 1, 1, true⟩
          else if rem = 0 then ⟨false, 1, 1, true⟩
          else
            let o := install_gitGo env (attempt + 1) rem
            ⟨o.ok, o.downloads + 1, o.installRuns + 1, true⟩
      | AttemptResult.exc =>
        if rem = 0 then ⟨false, 1, 1, false⟩
        else
          let o := install_gitGo env (attempt + 1) rem
          ⟨o.ok, o.downloads + 1, o.installRuns + 1, o.installedAny⟩
    else
      if rem = 0 then ⟨false, 1, 0, false⟩
      else
        let o := install_gitGo env (attempt + 1) rem
        ⟨o.ok, o.downloads + 1, o.installRuns, o.installedAny⟩

/-- The source's `install_git` (lines 49-82): run the combined
download-install-remove loop starting at attempt 1 with `MAX_ATTEMPTS`
attempts allowed. -/
def install_git (env : GitEnv) : GitOut :=
  install_gitGo env 1 MAX_ATTEMPTS

/-- Whether combined attempt `k` fully succeeds: the download succeeds, the
installer exits 0, and the temporary file is removed. -/
def gitAttemptOk (env : GitEnv) (k : Nat) : Bool :=
  env.downloadOk k && (env.installRes k == AttemptResult.exit 0) &&
    env.removeOk k

/-- Whether combined attempt `k` gets Git installed (the installer ran and
exited 0), regardless of the later remove. -/
def gitAttemptInstalled (env : GitEnv) (k : Nat) : Bool :=
  env.downloadOk k && (env.installRes k == AttemptResult.exit 0)

/-- The amended description of `install_git` with `MAX_ATTEMPTS = 2`,
written out flatly: if attempt 1 fully succeeds, one download and one
install run; otherwise a second combined attempt is made from scratch —
the installer is downloaded again (two downloads in total), run again if
its download succeeded, and the whole call succeeds only if attempt 2
fully succeeds. -/
def installCombined (env : GitEnv) : GitOut :=
  if gitAttemptOk env 1 then ⟨true, 1, 1, true⟩
  else
    ⟨gitAttemptOk env 2, 2,
      (if env.downloadOk 1 then 1 else 0) + (if env.downloadOk 2 then 1 else 0),
      gitAttemptInstalled env 1 || gitAttemptInstalled env 2⟩

/-- The source's `ensure_git` (lines 84-89): succeed at once when `git` is on the
path, otherwise run `install_git`. -/
def ensure_git (gitPresent : Bool) (genv : GitEnv) : Bool :=
  if gitPresent then true else (install_git genv).ok

theorem install_gitGo_last (env : GitEnv) (k : Nat) :
    install_gitGo env k 1 =
      ⟨gitAttemptOk env k, 1, if env.downloadOk k then 1 else 0,
        gitAttemptInstalled env k⟩ := by
  by_cases dk : env.downloadOk k
  · cases ik : env.installRes k with
    | exit c =>
      by_cases hc : c = 0
      · subst hc
        by_cases rk : env.removeOk k <;>
          simp [install_gitGo, gitAttemptOk, gitAttemptInstalled, dk, ik, rk]
      · simp [install_gitGo, gitAttemptOk, gitAttemptInstalled, dk, ik, hc]
    | exc => simp [install_gitGo, gitAttemptOk, gitAttemptInstalled, dk, ik]
  · simp [install_gitGo, gitAttemptOk, gitAttemptInstalled, dk]

theorem install_git_eq_installCombined (env : GitEnv) :
    install_git env = installCombined env := by
  show install_gitGo env 1 2 = installCombined env
  by_cases d1 : env.downloadOk 1
  · cases i1 : env.installRes 1 with
    | exit c =>
      by_cases hc : c = 0
      · subst hc
        by_cases r1 : env.removeOk 1
        · simp [install_gitGo, installCombined, gitAttemptOk, d1, i1, r1]
        · by_cases d2 : env.downloadOk 2
          · cases i2 : env.installRes 2 with
            | exit c2 =>
              by_cases hc2 : c2 = 0
              · subst hc2
                by_cases r2 : env.removeOk 2 <;>
                  simp [install_gitGo, installCombined, gitAttemptOk,
                    gitAttemptInstalled, d1, i1, r1, d2, i2, r2]
              · simp [install_gitGo, installCombined, gitAttemptOk,
                  gitAttemptInstalled, d1, i1, r1, d2, i2, hc2]
            | exc =>
              simp [install_gitGo, installCombined, gitAttemptOk,
                gitAttemptInstalled, d1, i1, r1, d2, i2]
          · simp [install_gitGo, installCombined, gitAttemptOk,
              gitAttemptInstalled, d1, i1, r1, d2]
      · by_cases d2 : env.downloadOk 2
        · cases i2 : env.installRes 2 with
          | exit c2 =>
            by_cases hc2 : c2 = 0
            · subst hc2
              by_cases r2 : env.removeOk 2 <;>
                simp [install_gitGo, installCombined, gitAttemptOk,
                  gitAttemptInstalled, d1, i1, hc, d2, i2, r2]
            · simp [install_gitGo, installCombined, gitAttemptOk,
                gitAttemptInstalled, d1, i1, hc, d2, i2, hc2]
          | exc =>
            simp [install_gitGo, installCombined, gitAttemptOk,
              gitAttemptInstalled, d1, i1, hc, d2, i2]
        · simp [install_gitGo, installCombined, gitAttemptOk,
            gitAttemptInstalled, d1, i1, hc, d2]
    | exc =>
      by_cases d2 : env.downloadOk 2
      · cases i2 : env.installRes 2 with
        | exit c2 =>
          by_cases hc2 : c2 = 0
          · subst hc2
            by_cases r2 : env.removeOk 2 <;>
              simp [install_gitGo, installCombined, gitAttemptOk,
                gitAttemptInstalled, d1, i1, d2, i2, r2]
          · simp [install_gitGo, installCombined, gitAttemptOk,
              gitAttemptInstalled, d1, i1, d2, i2, hc2]
        | exc =>
          simp [install_gitGo, installCombined, gitAttemptOk,
            gitAttemptInstalled, d1, i1, d2, i2]
      · simp [install_gitGo, installCombined, gitAttemptOk,
          gitAttemptInstalled, d1, i1, d2]
  · by_cases d2 : env.downloadOk 2
    · cases i2 : env.installRes 2 with
      | exit c2 =>
        by_cases hc2 : c2 = 0
        · subst hc2
          by_cases r2 : env.removeOk 2 <;>
            simp [install_gitGo, installCombined, gitAttemptOk,
              gitAttemptInstalled, d1, d2, i2, r2]
        · simp [install_gitGo, installCombined, gitAttemptOk,
            gitAttemptInstalled, d1, d2, i2, hc2]
      | exc =>
        simp [install_gitGo, installCombined, gitAttemptOk,
          gitAttemptInstalled, d1, d2, i2]
    · simp [install_gitGo, installCombined, gitAttemptOk,
        gitAttemptInstalled, d1, d2]

/-- Modelled from the claim under test (C3), for comparison with the
source: first a download phase that retries the download up to
`MAX_ATTEMPTS` times (stopping at the first success), then — if some
download succeeded — the installer run through `runCmd`'s retry policy,
succeeding exactly when that returns status 0, with the temporary file then
removed. -/
def install_git_claim (env : GitEnv) : GitOut :=
  match ((List.range MAX_ATTEMPTS).map (fun k => k + 1)).find?
      (fun k => env.downloadOk k) with
  | none => ⟨false, MAX_ATTEMPTS, 0, false⟩
  | some k =>
    let r := runCmd env.installRes
    ⟨r.1 == 0, k, r.2, r.1 == 0⟩

/-- An environment whose downloads always succeed and whose installer run
exits 1 the first time and 0 the second time; the temporary file is always
removable. -/
def gitEnvRetryInstall : GitEnv :=
  ⟨fun _ => true,
    fun k => if k = 1 then AttemptResult.exit 1 else AttemptResult.exit 0,
    fun _ => true⟩

/-- Counterexample to C3: when the first (successful) download is followed
by a failed installer run, the source re-downloads the installer for the
second attempt (2 downloads), whereas the claimed behavior — download
retried only within a download phase, installer retried inside `runCmd` —
performs a single download. -/
theorem install_git_ne_claim :
    install_git gitEnvRetryInstall ≠ install_git_claim gitEnvRetryInstall := by
  decide

/-- C3 (amended): when Git is absent, `ensure_git` returns the result of
`install_git`, which performs up to `MAX_ATTEMPTS` combined attempts; each
attempt downloads the installer to the temporary location and, if the
download succeeded, runs it once directly with the silent flags; a
download exception, a non-zero installer exit, or a failure to remove the
temporary file consumes the attempt and the next attempt re-downloads from
scratch; the call succeeds (removing the temporary file) exactly when some
attempt downloads, installs with exit 0 and removes the file. -/
theorem ensure_git_combined_attempts :
    (∀ genv : GitEnv, ensure_git true genv = true) ∧
    (∀ genv : GitEnv, ensure_git false genv = (install_git genv).ok) ∧
    (∀ genv : GitEnv, install_git genv = installCombined genv) :=
  ⟨fun _ => rfl, fun _ => rfl, install_git_eq_installCombined⟩

/-- C9: in `install_git`, a failure to remove the temporary installer after
a successful silent install is handled as an installation failure: on a
non-final attempt the whole download-and-install is redone from scratch
(a second download, and a second installer run when that download
succeeds), and when the same happens on the final attempt the call returns
failure even though the installer did run successfully. -/
theorem install_git_remove_failure (env : GitEnv)
    (hd : env.downloadOk 1 = true)
    (hi : env.installRes 1 = AttemptResult.exit 0)
    (hr : env.removeOk 1 = false) :
    (install_git env).downloads = 2 ∧
    (env.downloadOk 2 = true → (install_git env).installRuns = 2) ∧
    (env.downloadOk 2 = true → env.installRes 2 = AttemptResult.exit 0 →
      env.removeOk 2 = false →
      (install_git env).ok = false ∧ (install_git env).installedAny = true) := by
  rw [install_git_eq_installCombined]
  refine ⟨?_, ?_, ?_⟩
  · simp [installCombined, gitAttemptOk, hd, hi, hr]
  · intro hd2
    simp [installCombined, gitAttemptOk, hd, hi, hr, hd2]
  · intro hd2 hi2 hr2
    simp [installCombined, gitAttemptOk, gitAttemptInstalled, hd, hi, hr,
      hd2, hi2, hr2]

/-- An environment where every attempt downloads and installs fine but the
temporary file can never be removed. -/
def gitEnvRemoveFail : GitEnv :=
  ⟨fun _ => true, fun _ => AttemptResult.exit 0, fun _ => false⟩

/-- Witness for C9: with remove failing on both attempts, two downloads
happen and the call fails although Git was installed. -/
theorem install_git_remove_failure_witness :
    (install_git gitEnvRemoveFail).downloads = 2 ∧
    (install_git gitEnvRemoveFail).ok = false ∧
    (install_git gitEnvRemoveFail).installedAny = true := by
  obtain ⟨h1, _, h3⟩ :=
    install_git_remove_failure gitEnvRemoveFail rfl rfl rfl
  exact ⟨h1, (h3 rfl rfl rfl).1, (h3 rfl rfl rfl).2⟩

/-- Error reports (`log_error` calls) distinguishable in `do_workflow`. -/
inductive ETag where
  | critical
  | gitFail
  | rmFail
  | cloneFail
  | pyMissing
  | npmMissing
  | pipFail
  | npmFail
  | detectFail
  | noEntry
deriving DecidableEq

/-- Observable events of one `do_workflow` run, in order: step-counter
increments (`step_idx += 1`, with the new value), error reports, the
external commands started for clone / dependency install / launch (the
launch events record the status `run_cmd` returned, which the source
ignores), entry-point resolution, the final `"Gotowe!"` message, and the
selection prompt blocking forever on an exhausted input stream. -/
inductive Event where
  | stepDone (n : Nat)
  | err (t : ETag)
  | cloneCall
  | pipCall
  | npmInstallCall
  | entryResolve
  | pyRun (status : Int)
  | npmStart (status : Int)
  | gotowe
  | selBlocked
deriving DecidableEq

/-- Environment of one `do_workflow` run: outcomes of every external
effect the source can perform.  Filesystem facts (`targetExists`,
`reqExists`, `pkgExists`, `files`) are static over the run. -/
structure WEnv where
  /-- whether `os.makedirs(WORKDIR)` succeeds (raises otherwise) -/
  mkWorkdirOk : Bool
  /-- whether `shutil.which("git")` finds git -/
  gitPresent : Bool
  /-- outcomes for `install_git` if it runs -/
  gitEnv : GitEnv
  /-- whether the clone target directory already exists -/
  targetExists : Bool
  /-- whether `shutil.rmtree` of the stale directory succeeds -/
  rmtreeOk : Bool
  /-- launch outcomes of `git clone` -/
  cloneAtt : Nat → AttemptResult
  /-- whether `<target>/requirements.txt` is a file -/
  reqExists : Bool
  /-- whether `<target>/package.json` is a file -/
  pkgExists : Bool
  /-- whether `shutil.which("python")` finds python -/
  pythonPresent : Bool
  /-- whether `shutil.which("npm")` finds npm -/
  npmPresent : Bool
  /-- launch outcomes of `pip install -r requirements.txt` -/
  pipAtt : Nat → AttemptResult
  /-- launch outcomes of `npm install` -/
  npmInstallAtt : Nat → AttemptResult
  /-- top-level file names of the cloned directory -/
  files : List (List Char)
  /-- console inputs available to the selection prompt -/
  inputs : List ConsoleIn
  /-- launch outcomes of `python <entry>` -/
  runAtt : Nat → AttemptResult
  /-- launch outcomes of `npm start` -/
  npmStartAtt : Nat → AttemptResult

/-- Step 5 of `do_workflow` (source lines 235-249): for a Python project
resolve the entry point and launch it (ignoring the launch's status),
reporting an error when no entry file was found; for a Node project run
`npm start` (status ignored); then `step_idx += 1` and `"Gotowe!"`.  When
the selection prompt never receives a valid index the source loops
forever, so nothing after it happens. -/
def runStep (env : WEnv) : List Event :=
  if env.reqExists then
    Event.entryResolve ::
      (match find_python_entrypoint env.files env.inputs with
        | EntryResult.found _ =>
          [Event.pyRun (runCmd env.runAtt).1, Event.stepDone 5, Event.gotowe]
        | EntryResult.nofile =>
          [Event.err ETag.noEntry, Event.stepDone 5, Event.gotowe]
        | EntryResult.blocked => [Event.selBlocked])
  else if env.pkgExists then
    [Event.npmStart (runCmd env.npmStartAtt).1, Event.stepDone 5, Event.gotowe]
  else [Event.stepDone 5, Event.gotowe]

/-- Step 4 of `do_workflow` (source lines 207-233) followed by step 5: if
`requirements.txt` exists take the Python path (`ensure_python`, then
`pip install`), else if `package.json` exists take the Node path
(`ensure_npm`, then `npm install`), else report an unsupported technology
and stop; a failed install or a missing runtime stops the run. -/
def depsAndRun (env : WEnv) : List Event :=
  if env.reqExists then
    if env.pythonPresent then
      Event.pipCall ::
        (if (runCmd env.pipAtt).1 = 0 then Event.stepDone 4 :: runStep env
          else [Event.err ETag.pipFail])
    else [Event.err ETag.pyMissing]
  else if env.pkgExists then
    if env.npmPresent then
      Event.npmInstallCall ::
        (if (runCmd env.npmInstallAtt).1 = 0 then Event.stepDone 4 :: runStep env
          else [Event.err ETag.npmFail])
    else [Event.err ETag.npmMissing]
  else [Event.err ETag.detectFail]

/-- The source's `do_workflow` (lines 164-253) as the ordered list of its
observable events: create the workspace (an exception is caught by the
top-level handler), ensure Git, remove a stale clone target, clone, then
dependencies and launch.  Every failure before step 5 reports an error and
stops. -/
def do_workflow (env : WEnv) : List Event :=
  if env.mkWorkdirOk then
    Event.stepDone 1 ::
      (if ensure_git env.gitPresent env.gitEnv then
        Event.stepDone 2 ::
          (if env.targetExists && !env.rmtreeOk then [Event.err ETag.rmFail]
            else
              Event.cloneCall ::
                (if (runCmd env.cloneAtt).1 = 0 then
                  Event.stepDone 3 :: depsAndRun env
                  else [Event.err ETag.cloneFail]))
        else [Event.err ETag.gitFail])
  else [Event.err ETag.critical]

/-- Success of the first four steps: workspace created, Git ensured, any
stale directory removed, clone exited 0, and the dependency install of the
detected stack completed with status 0. -/
def steps14Succeed (env : WEnv) : Prop :=
  env.mkWorkdirOk = true ∧
  ensure_git env.gitPresent env.gitEnv = true ∧
  (env.targetExists && !env.rmtreeOk) = false ∧
  (runCmd env.cloneAtt).1 = 0 ∧
  ((env.reqExists = true ∧ env.pythonPresent = true ∧
      (runCmd env.pipAtt).1 = 0) ∨
    (env.reqExists = false ∧ env.pkgExists = true ∧ env.npmPresent = true ∧
      (runCmd env.npmInstallAtt).1 = 0))

/-- The list of `stepDone` values of a trace, in order. -/
def stepDones (t : List Event) : List Nat :=
  t.filterMap (fun e =>
    match e with
    | Event.stepDone n => some n
    | _ => none)

theorem gotowe_mem_iff (env : WEnv)
    (hb : env.reqExists = true →
      find_python_entrypoint env.files env.inputs ≠ EntryResult.blocked) :
    (Event.gotowe ∈ do_workflow env ↔ steps14Succeed env) := by
  unfold do_workflow depsAndRun runStep
  by_cases h1 : env.mkWorkdirOk = true
  case neg => simp [h1, steps14Succeed]
  by_cases h2 : ensure_git env.gitPresent env.gitEnv = true
  case neg => simp [h1, h2, steps14Succeed]
  by_cases h3 : (env.targetExists && !env.rmtreeOk) = true
  case pos => simp [h1, h2, h3, steps14Succeed]
  by_cases h4 : (runCmd env.cloneAtt).1 = 0
  case neg => simp [h1, h2, h3, h4, steps14Succeed]
  by_cases h5 : env.reqExists = true
  · by_cases h7 : env.pythonPresent = true
    case neg => simp [h1, h2, h3, h4, h5, h7, steps14Succeed]
    by_cases h8 : (runCmd env.pipAtt).1 = 0
    case neg => simp [h1, h2, h3, h4, h5, h7, h8, steps14Succeed]
    cases hf : find_python_entrypoint env.files env.inputs with
    | found f => simp [h1, h2, h3, h4, h5, h7, h8, hf, steps14Succeed]
    | nofile => simp [h1, h2, h3, h4, h5, h7, h8, hf, steps14Succeed]
    | blocked => exact absurd hf (hb h5)
  · by_cases h6 : env.pkgExists = true
    case neg => simp [h1, h2, h3, h4, h5, h6, steps14Succeed]
    by_cases h9 : env.npmPresent = true
    case neg => simp [h1, h2, h3, h4, h5, h6, h9, steps14Succeed]
    by_cases h10 : (runCmd env.npmInstallAtt).1 = 0
    case neg => simp [h1, h2, h3, h4, h5, h6, h9, h10, steps14Succeed]
    simp [h1, h2, h3, h4, h5, h6, h9, h10, steps14Succeed]

/-- A command every launch of which exits 0. -/
def attOk : Nat → AttemptResult := fun _ => AttemptResult.exit 0

/-- A command every launch of which exits 7. -/
def attFail7 : Nat → AttemptResult := fun _ => AttemptResult.exit 7

/-- A Git-install environment where everything succeeds. -/
def gitEnvOk : GitEnv :=
  ⟨fun _ => true, fun _ => AttemptResult.exit 0, fun _ => true⟩

/-- A run where every step succeeds: a Python project whose only files are
`requirements.txt` and `main.py`. -/
def envAllOk : WEnv :=
  ⟨true, true, gitEnvOk, false, true, attOk, true, false, true, true,
    attOk, attOk, ["requirements.txt".toList, "main.py".toList], [], attOk, attOk⟩

/-- A run where steps 1-4 succeed but the cloned Python project has no
`.py` file at all, so entry-point resolution fails. -/
def envNoEntry : WEnv :=
  ⟨true, true, gitEnvOk, false, true, attOk, true, false, true, true,
    attOk, attOk, ["requirements.txt".toList], [], attOk, attOk⟩

/-- A run where steps 1-4 succeed, `main.py` is found, but launching it
exits with status 7. -/
def envRunFails : WEnv :=
  ⟨true, true, gitEnvOk, false, true, attOk, true, false, true, true,
    attOk, attOk, ["requirements.txt".toList, "main.py".toList], [], attFail7, attOk⟩

/-- Counterexample to C1: in `envNoEntry` the entry-point resolution step
fails (the error is reported) and yet `do_workflow` still prints the final
`"Gotowe!"` message — the run step's failure does not suppress it. -/
theorem gotowe_despite_failure :
    Event.err ETag.noEntry ∈ do_workflow envNoEntry ∧
    Event.gotowe ∈ do_workflow envNoEntry := by decide

/-- C1 (amended): `do_workflow` prints the final `"Gotowe!"` message if and
only if the first four steps (workspace, Git, clone, dependency install)
all succeed — provided the run step's interactive selection, if reached,
terminates.  Failures inside the run step itself (no resolvable entry
file, or the launched command exiting non-zero) do not prevent the
message. -/
theorem gotowe_iff_steps14 (env : WEnv)
    (hb : env.reqExists = true →
      find_python_entrypoint env.files env.inputs ≠ EntryResult.blocked) :
    (Event.gotowe ∈ do_workflow env ↔ steps14Succeed env) :=
  gotowe_mem_iff env hb

/-- Witness for C1 (amended): in the all-success run the message is
printed. -/
theorem gotowe_iff_steps14_witness : Event.gotowe ∈ do_workflow envAllOk :=
  (gotowe_iff_steps14 envAllOk (by decide)).mpr
    (by unfold steps14Succeed; decide)

/-- How many `step_idx += 1` increments a run performs: each of steps 1-4
increments only after its operation succeeds, and step 5 increments
whenever it is reached and its run block terminates, regardless of the
launch outcome. -/
def successCount (env : WEnv) : Nat :=
  if env.mkWorkdirOk = false then 0
  else if ensure_git env.gitPresent env.gitEnv = false then 1
  else if (env.targetExists && !env.rmtreeOk) = true then 2
  else if (runCmd env.cloneAtt).1 ≠ 0 then 2
  else if env.reqExists then
    if env.pythonPresent = false then 3
    else if (runCmd env.pipAtt).1 ≠ 0 then 3
    else 5
  else if env.pkgExists then
    if env.npmPresent = false then 3
    else if (runCmd env.npmInstallAtt).1 ≠ 0 then 3
    else 5
  else 3

/-- Counterexample to C8: in `envRunFails` the launched run command exits
with status 7, yet the step counter still advances to 5 (and the final
message is printed) — the fifth advance is not conditioned on the run
step's operation succeeding. -/
theorem step5_advances_despite_run_failure :
    Event.pyRun 7 ∈ do_workflow envRunFails ∧
    Event.stepDone 5 ∈ do_workflow envRunFails ∧
    Event.gotowe ∈ do_workflow envRunFails := by decide

/-- C8 (amended): provided the run step's interactive selection, if
reached, terminates, the step-counter increments of a run are exactly
`1, 2, ..., successCount env` in order — so steps complete strictly in the
fixed order, none is skipped or repeated, each of steps 1-4 advances the
counter only after its operation succeeds, and a failure in steps 1-4
halts the workflow (later operations are never attempted); the fifth
advance, however, happens whenever step 5 is reached, regardless of the
run's outcome.  The remaining conjuncts state the no-later-step-attempted
part explicitly: cloning needs steps 1-2 to have succeeded, installing
dependencies needs the clone to have exited 0, and the run step needs the
dependency step to have completed. -/
theorem do_workflow_step_counter (env : WEnv)
    (hb : env.reqExists = true →
      find_python_entrypoint env.files env.inputs ≠ EntryResult.blocked) :
    stepDones (do_workflow env) =
      (List.range (successCount env)).map (fun k => k + 1) ∧
    (Event.cloneCall ∈ do_workflow env →
      env.mkWorkdirOk = true ∧ ensure_git env.gitPresent env.gitEnv = true) ∧
    (Event.pipCall ∈ do_workflow env ∨ Event.npmInstallCall ∈ do_workflow env →
      (runCmd env.cloneAtt).1 = 0) ∧
    (Event.entryResolve ∈ do_workflow env ∨
        (∃ c, Event.pyRun c ∈ do_workflow env) ∨
        (∃ c, Event.npmStart c ∈ do_workflow env) →
      Event.stepDone 4 ∈ do_workflow env) := by
  unfold do_workflow depsAndRun runStep
  by_cases h1 : env.mkWorkdirOk = true
  case neg =>
    simp [h1, stepDones, successCount, List.range_succ]
  by_cases h2 : ensure_git env.gitPresent env.gitEnv = true
  case neg =>
    simp [h1, h2, stepDones, successCount, List.range_succ]
  by_cases h3 : (env.targetExists && !env.rmtreeOk) = true
  case pos =>
    simp [h1, h2, h3, stepDones, successCount, List.range_succ]
  by_cases h4 : (runCmd env.cloneAtt).1 = 0
  case neg =>
    simp [h1, h2, h3, h4, stepDones, successCount, List.range_succ]
  by_cases h5 : env.reqExists = true
  · by_cases h7 : env.pythonPresent = true
    case neg =>
      simp [h1, h2, h3, h4, h5, h7, stepDones, successCount, List.range_succ]
    by_cases h8 : (runCmd env.pipAtt).1 = 0
    case neg =>
      simp [h1, h2, h3, h4, h5, h7, h8, stepDones, successCount,
        List.range_succ]
    cases hf : find_python_entrypoint env.files env.inputs with
    | found f =>
      simp [h1, h2, h3, h4, h5, h7, h8, hf, stepDones, successCount,
        List.range_succ]
    | nofile =>
      simp [h1, h2, h3, h4, h5, h7, h8, hf, stepDones, successCount,
        List.range_succ]
    | blocked => exact absurd hf (hb h5)
  · by_cases h6 : env.pkgExists = true
    case neg =>
      simp [h1, h2, h3, h4, h5, h6, stepDones, successCount, List.range_succ]
    by_cases h9 : env.npmPresent = true
    case neg =>
      simp [h1, h2, h3, h4, h5, h6, h9, stepDones, successCount,
        List.range_succ]
    by_cases h10 : (runCmd env.npmInstallAtt).1 = 0
    case neg =>
      simp [h1, h2, h3, h4, h5, h6, h9, h10, stepDones, successCount,
        List.range_succ]
    simp [h1, h2, h3, h4, h5, h6, h9, h10, stepDones, successCount,
      List.range_succ]

/-- Witness for C8 (amended): in the all-success run the counter goes
exactly 1, 2, 3, 4, 5. -/
theorem do_workflow_step_counter_witness :
    stepDones (do_workflow envAllOk) = [1, 2, 3, 4, 5] := by
  have h := (do_workflow_step_counter envAllOk (by decide)).1
  rw [h]
  unfold successCount
  decide

/-- C6: a cloned directory with neither `requirements.txt` nor
`package.json` makes the workflow abort at the dependency-install step
with the unsupported-technology error — the run step (entry resolution,
python launch, npm start) is never attempted and nothing beyond step 3
completes; and whenever `requirements.txt` exists the Python path is taken,
so the Node commands are never run even if `package.json` also exists. -/
theorem detection_failure_aborts (env : WEnv) :
    (env.reqExists = false → env.pkgExists = false →
      (Event.entryResolve ∉ do_workflow env ∧
        (∀ c, Event.pyRun c ∉ do_workflow env) ∧
        (∀ c, Event.npmStart c ∉ do_workflow env) ∧
        Event.stepDone 4 ∉ do_workflow env ∧
        Event.gotowe ∉ do_workflow env) ∧
      (env.mkWorkdirOk = true → ensure_git env.gitPresent env.gitEnv = true →
        (env.targetExists && !env.rmtreeOk) = false →
        (runCmd env.cloneAtt).1 = 0 →
        do_workflow env =
          [Event.stepDone 1, Event.stepDone 2, Event.cloneCall,
            Event.stepDone 3, Event.err ETag.detectFail])) ∧
    (env.reqExists = true →
      Event.npmInstallCall ∉ do_workflow env ∧
      (∀ c, Event.npmStart c ∉ do_workflow env)) := by
  constructor
  · intro h5 h6
    constructor
    · unfold do_workflow depsAndRun runStep
      by_cases h1 : env.mkWorkdirOk = true
      case neg => simp [h1]
      by_cases h2 : ensure_git env.gitPresent env.gitEnv = true
      case neg => simp [h1, h2]
      by_cases h3 : (env.targetExists && !env.rmtreeOk) = true
      case pos => simp [h1, h2, h3]
      by_cases h4 : (runCmd env.cloneAtt).1 = 0
      case neg => simp [h1, h2, h3, h4]
      simp [h1, h2, h3, h4, h5, h6]
    · intro h1 h2 h3 h4
      unfold do_workflow depsAndRun runStep
      simp [h1, h2, h3, h4, h5, h6]
  · intro h5
    unfold do_workflow depsAndRun runStep
    by_cases h1 : env.mkWorkdirOk = true
    case neg => simp [h1]
    by_cases h2 : ensure_git env.gitPresent env.gitEnv = true
    case neg => simp [h1, h2]
    by_cases h3 : (env.targetExists && !env.rmtreeOk) = true
    case pos => simp [h1, h2, h3]
    by_cases h4 : (runCmd env.cloneAtt).1 = 0
    case neg => simp [h1, h2, h3, h4]
    by_cases h7 : env.pythonPresent = true
    case neg => simp [h1, h2, h3, h4, h5, h7]
    by_cases h8 : (runCmd env.pipAtt).1 = 0
    case neg => simp [h1, h2, h3, h4, h5, h7, h8]
    cases hf : find_python_entrypoint env.files env.inputs with
    | found f => simp [h1, h2, h3, h4, h5, h7, h8, hf]
    | nofile => simp [h1, h2, h3, h4, h5, h7, h8, hf]
    | blocked => simp [h1, h2, h3, h4, h5, h7, h8, hf]

/-- A run whose cloned directory has neither manifest file. -/
def envNoStack : WEnv :=
  ⟨true, true, gitEnvOk, false, true, attOk, false, false, true, true,
    attOk, attOk, [], [], attOk, attOk⟩

/-- Witness for C6: with neither manifest present and steps 1-3 fine, the
run is exactly the three completed steps followed by the detection
error. -/
theorem detection_failure_aborts_witness :
    do_workflow envNoStack =
      [Event.stepDone 1, Event.stepDone 2, Event.cloneCall,
        Event.stepDone 3, Event.err ETag.detectFail] :=
  ((detection_failure_aborts envNoStack).1 rfl rfl).2 rfl rfl rfl rfl

theorem noEntry_skips_launch (env : WEnv) (h5 : env.reqExists = true)
    (hf : find_python_entrypoint env.files env.inputs = EntryResult.nofile) :
    (∀ c, Event.pyRun c ∉ do_workflow env) ∧
    (Event.stepDone 4 ∈ do_workflow env →
      Event.err ETag.noEntry ∈ do_workflow env) := by
  unfold do_workflow depsAndRun runStep
  by_cases h1 : env.mkWorkdirOk = true
  case neg => simp [h1]
  by_cases h2 : ensure_git env.gitPresent env.gitEnv = true
  case neg => simp [h1, h2]
  by_cases h3 : (env.targetExists && !env.rmtreeOk) = true
  case pos => simp [h1, h2, h3]
  by_cases h4 : (runCmd env.cloneAtt).1 = 0
  case neg => simp [h1, h2, h3, h4]
  by_cases h7 : env.pythonPresent = true
  case neg => simp [h1, h2, h3, h4, h5, h7]
  by_cases h8 : (runCmd env.pipAtt).1 = 0
  case neg => simp [h1, h2, h3, h4, h5, h7, h8]
  simp [h1, h2, h3, h4, h5, h7, h8, hf]

/-- C4: entry-point resolution for a Python project checks `main.py`,
`app.py`, `index.py` in that order and returns the first that exists; with
no conventional candidate it returns the unique top-level `.py` file when
exactly one exists (for every input stream, i.e. without prompting); with
several it runs the selection prompt, skipping every invalid or
out-of-range input until the first valid index, whose file it returns; and
with none it reports no entry file, in which case the workflow's launch is
skipped and the error is reported instead. -/
theorem find_python_entrypoint_spec :
    (∀ files inputs,
      files.contains ("main.py".toList) = true →
        find_python_entrypoint files inputs =
          EntryResult.found ("main.py".toList)) ∧
    (∀ files inputs,
      files.contains ("main.py".toList) = false →
      files.contains ("app.py".toList) = true →
        find_python_entrypoint files inputs =
          EntryResult.found ("app.py".toList)) ∧
    (∀ files inputs,
      files.contains ("main.py".toList) = false →
      files.contains ("app.py".toList) = false →
      files.contains ("index.py".toList) = true →
        find_python_entrypoint files inputs =
          EntryResult.found ("index.py".toList)) ∧
    (∀ files inputs f,
      (∀ g ∈ candidates, files.contains g = false) →
      pyFilesOf files = [f] →
        find_python_entrypoint files inputs = EntryResult.found f) ∧
    (∀ files pre rest (c : Int),
      (∀ g ∈ candidates, files.contains g = false) →
      1 < (pyFilesOf files).length →
      (∀ x ∈ pre, validChoice (pyFilesOf files).length x = false) →
      1 ≤ c → c ≤ ((pyFilesOf files).length : Int) →
        find_python_entrypoint files (pre ++ some c :: rest) =
          EntryResult.found ((pyFilesOf files).getD (c.toNat - 1) [])) ∧
    (∀ files inputs,
      (∀ g ∈ candidates, files.contains g = false) →
      pyFilesOf files = [] →
        find_python_entrypoint files inputs = EntryResult.nofile) ∧
    (∀ env : WEnv, env.reqExists = true →
      find_python_entrypoint env.files env.inputs = EntryResult.nofile →
      (∀ c, Event.pyRun c ∉ do_workflow env) ∧
      (Event.stepDone 4 ∈ do_workflow env →
        Event.err ETag.noEntry ∈ do_workflow env)) := by
  refine ⟨?_, ?_, ?_, ?_, ?_, ?_, noEntry_skips_launch⟩
  · intro files inputs h1
    simp only [find_python_entrypoint, candidates, List.find?, h1]
  · intro files inputs h1 h2
    simp only [find_python_entrypoint, candidates, List.find?, h1, h2]
  · intro files inputs h1 h2 h3
    simp only [find_python_entrypoint, candidates, List.find?, h1, h2, h3]
  · intro files inputs f hc hf
    have h1 := hc ("main.py".toList) (by simp [candidates])
    have h2 := hc ("app.py".toList) (by simp [candidates])
    have h3 := hc ("index.py".toList) (by simp [candidates])
    simp only [find_python_entrypoint, candidates, List.find?, h1, h2, h3]
    rw [hf]
    simp
  · intro files pre rest c hc hlen hpre hc1 hc2
    have h1 := hc ("main.py".toList) (by simp [candidates])
    have h2 := hc ("app.py".toList) (by simp [candidates])
    have h3 := hc ("index.py".toList) (by simp [candidates])
    have hne : ¬(pyFilesOf files).length = 1 := by omega
    simp only [find_python_entrypoint, candidates, List.find?, h1, h2, h3]
    rw [if_neg hne, if_pos (show (pyFilesOf files).length > 1 from hlen)]
    exact selectLoop_first_valid (pyFilesOf files) pre c rest hpre hc1 hc2
  · intro files inputs hc hf
    have h1 := hc ("main.py".toList) (by simp [candidates])
    have h2 := hc ("app.py".toList) (by simp [candidates])
    have h3 := hc ("index.py".toList) (by simp [candidates])
    simp only [find_python_entrypoint, candidates, List.find?, h1, h2, h3]
    rw [hf]
    simp

/-- Witness for C4: a directory with `requirements.txt`, `util.py` and
`tool.py` (no conventional candidate): an unparseable input, then an
out-of-range `3`, then the valid `2` select the second listed file. -/
theorem find_python_entrypoint_spec_witness :
    find_python_entrypoint
        ["requirements.txt".toList, "util.py".toList, "tool.py".toList]
        ([none, some 3, some 2]) =
      EntryResult.found ("tool.py".toList) := by
  have h := find_python_entrypoint_spec.2.2.2.2.1
    (["requirements.txt".toList, "util.py".toList, "tool.py".toList])
    ([none, some 3]) ([]) 2 (by decide) (by decide) (by decide)
    (by decide) (by decide)
  simpa using h
